import Mathlib

/-
Verification of the web event-loop backend: a shallow embedding of
`src/src/platform/web.rs` and `src/src/platform_impl/web/event_loop/mod.rs`,
with the parts of the runner, the wake proxy and the loop state that live
outside those two files modelled from the specification.
-/

namespace WinitWeb

/-- `std::time::Duration`: whole seconds plus a sub-second nanosecond part. -/
structure Duration where
  secs : Nat
  nanos : Nat
deriving DecidableEq

/-- The platform custom cursor held inside the public `CustomCursor`.
Of its contents only the `animation` flag is referenced from
`src/src/platform/web.rs` (via `CustomCursor::is_animation`); the image
payload is abstracted as an identifier. -/
structure PlatformCustomCursor where
  image_id : Nat
  animation : Bool
deriving DecidableEq

/-- `crate::window::CustomCursor`, a wrapper around the platform cursor. -/
structure CustomCursor where
  inner : PlatformCustomCursor
deriving DecidableEq

/-- `CustomCursorExtWeb::is_animation`: `self.inner.animation`. -/
def CustomCursor.is_animation (c : CustomCursor) : Bool :=
  c.inner.animation

/-- `PlatformCustomCursorSource` as constructed in `src/src/platform/web.rs`:
the `Url` variant (from `from_url`) and the `Animation` variant
(from `from_animation`). -/
inductive PlatformCustomCursorSource where
  | Url (url_id : Nat) (hotspot_x : Nat) (hotspot_y : Nat)
  | Animation (duration : Duration) (cursors : List CustomCursor)
deriving DecidableEq

/-- `crate::cursor::CustomCursorSource`, a wrapper around the platform source. -/
structure CustomCursorSource where
  inner : PlatformCustomCursorSource
deriving DecidableEq

/-- The `BadAnimation` error enum of `src/src/platform/web.rs`: `Empty` when
no cursors were supplied, `Animation` when a supplied cursor is an animation. -/
inductive BadAnimation where
  | Empty
  | Animation
deriving DecidableEq

/-- `CustomCursorExtWeb::from_animation`: reject an empty cursor list with
`BadAnimation::Empty`, reject a list containing an animation cursor with
`BadAnimation::Animation`, otherwise build the `Animation` source from the
supplied duration and cursors. A pure function: validation is complete at
the construction call, with no scheduling or host interaction. -/
def from_animation (duration : Duration) (cursors : List CustomCursor) :
    Except BadAnimation CustomCursorSource :=
  if cursors.isEmpty then
    .error .Empty
  else if cursors.any CustomCursor.is_animation then
    .error .Animation
  else
    .ok ⟨.Animation duration cursors⟩

/-- Modelled from the spec: decoding a `CustomCursorSource` into a
`CustomCursor` happens in `platform_impl` code that is not under `src/`.
The spec states that the resource resulting from a successful
`from_animation` has `is_animation()` reporting true, so the decoded
cursor records whether its source was the `Animation` variant. -/
def cursorFromSource (image_id : Nat) (source : CustomCursorSource) :
    CustomCursor :=
  match source.inner with
  | .Url _ _ _ => ⟨image_id, false⟩
  | .Animation _ _ => ⟨image_id, true⟩

/-- `PollStrategy` from `src/src/platform/web.rs`. -/
inductive PollStrategy where
  | IdleCallback
  | Scheduler
deriving DecidableEq

/-- The `#[derive(Default)]` instance of `PollStrategy`: the `#[default]`
attribute sits on the `Scheduler` variant. -/
def PollStrategy.default : PollStrategy :=
  .Scheduler

/-- `WaitUntilStrategy` from `src/src/platform/web.rs`. -/
inductive WaitUntilStrategy where
  | Scheduler
  | Worker
deriving DecidableEq

/-- The `#[derive(Default)]` instance of `WaitUntilStrategy`: the
`#[default]` attribute sits on the `Scheduler` variant. -/
def WaitUntilStrategy.default : WaitUntilStrategy :=
  .Scheduler

/-- Modelled from the spec: the shared loop state (`window_target.rs` and
`state.rs`, not under `src/`) holding both strategy selections and the
bookkeeping for the currently armed scheduling token. The strategy getters
and setters of `EventLoopExtWeb` and `ActiveEventLoopExtWeb` in
`src/src/platform/web.rs` delegate to this state. -/
structure LoopHandle where
  poll_strategy : PollStrategy
  wait_until_strategy : WaitUntilStrategy
  armed_token : Option Nat
deriving DecidableEq

/-- Modelled from the spec: `set_poll_strategy` stores the new policy in the
shared loop state, leaving everything else, the armed token included,
untouched. -/
def set_poll_strategy (s : LoopHandle) (strategy : PollStrategy) :
    LoopHandle :=
  { s with poll_strategy := strategy }

/-- Modelled from the spec: `set_wait_until_strategy` stores the new policy
in the shared loop state, leaving everything else, the armed token included,
untouched. -/
def set_wait_until_strategy (s : LoopHandle) (strategy : WaitUntilStrategy) :
    LoopHandle :=
  { s with wait_until_strategy := strategy }

/-- `crate::event_loop::ActiveEventLoop`: the `target` value passed to every
application-handler entry point, wrapping the shared loop state. -/
structure ActiveEventLoop where
  p : LoopHandle

/-- `StartCause` values listed by the spec for `NewEvents`. -/
inductive StartCause where
  | Init
  | Poll
  | WaitCancelled
  | ResumeTimeReached
deriving DecidableEq

/-- An identifier of a window, payload of window events. -/
structure WindowId where
  id : Nat
deriving DecidableEq

/-- An identifier of a device, payload of device events. -/
structure DeviceId where
  id : Nat
deriving DecidableEq

/-- A window event payload, abstracted as an identifier: its contents are
routed through `handle_event` unexamined. -/
structure WindowEvent where
  code : Nat
deriving DecidableEq

/-- A device event payload, abstracted as an identifier: its contents are
routed through `handle_event` unexamined. -/
structure DeviceEvent where
  code : Nat
deriving DecidableEq

/-- `crate::event::Event`, with the nine variants matched by `handle_event`
in `src/src/platform_impl/web/event_loop/mod.rs`. -/
inductive Event where
  | NewEvents (cause : StartCause)
  | Window (window_id : WindowId) (event : WindowEvent)
  | Device (device_id : DeviceId) (event : DeviceEvent)
  | UserWakeUp
  | Suspended
  | Resumed
  | AboutToWait
  | LoopExiting
  | MemoryWarning
deriving DecidableEq

/-- `crate::application::ApplicationHandler`, embedded as a record of state
transitions on an application state `A`: one entry point per event
category, each receiving the `target` loop handle as in the source. -/
structure ApplicationHandler (A : Type) where
  new_events : A → ActiveEventLoop → StartCause → A
  window_event : A → ActiveEventLoop → WindowId → WindowEvent → A
  device_event : A → ActiveEventLoop → DeviceId → DeviceEvent → A
  user_wake_up : A → ActiveEventLoop → A
  suspended : A → ActiveEventLoop → A
  resumed : A → ActiveEventLoop → A
  about_to_wait : A → ActiveEventLoop → A
  exiting : A → ActiveEventLoop → A
  memory_warning : A → ActiveEventLoop → A

/-- `handle_event` from `src/src/platform_impl/web/event_loop/mod.rs`: match
on the event and invoke the corresponding application-handler entry point. -/
def handle_event {A : Type} (app : ApplicationHandler A) (state : A)
    (target : ActiveEventLoop) : Event → A
  | .NewEvents cause => app.new_events state target cause
  | .Window window_id event => app.window_event state target window_id event
  | .Device device_id event => app.device_event state target device_id event
  | .UserWakeUp => app.user_wake_up state target
  | .Suspended => app.suspended state target
  | .Resumed => app.resumed state target
  | .AboutToWait => app.about_to_wait state target
  | .LoopExiting => app.exiting state target
  | .MemoryWarning => app.memory_warning state target

/-- A record of one application-handler entry point being invoked, with the
arguments it received. -/
inductive HandlerCall where
  | new_events (cause : StartCause)
  | window_event (window_id : WindowId) (event : WindowEvent)
  | device_event (device_id : DeviceId) (event : DeviceEvent)
  | user_wake_up
  | suspended
  | resumed
  | about_to_wait
  | exiting
  | memory_warning
deriving DecidableEq

/-- An instrumented application handler over a call log: every entry point
appends a record of its own invocation. Running `handle_event` with this
handler makes the dispatch observable. -/
def loggingHandler : ApplicationHandler (List HandlerCall) where
  new_events := fun log _ cause => log ++ [.new_events cause]
  window_event := fun log _ window_id event => log ++ [.window_event window_id event]
  device_event := fun log _ device_id event => log ++ [.device_event device_id event]
  user_wake_up := fun log _ => log ++ [.user_wake_up]
  suspended := fun log _ => log ++ [.suspended]
  resumed := fun log _ => log ++ [.resumed]
  about_to_wait := fun log _ => log ++ [.about_to_wait]
  exiting := fun log _ => log ++ [.exiting]
  memory_warning := fun log _ => log ++ [.memory_warning]

/-- The entry point each event category is claimed to reach, written from
the claim, to be compared with what `handle_event` actually does. -/
def specDispatchCall : Event → HandlerCall
  | .NewEvents cause => .new_events cause
  | .Window window_id event => .window_event window_id event
  | .Device device_id event => .device_event device_id event
  | .UserWakeUp => .user_wake_up
  | .Suspended => .suspended
  | .Resumed => .resumed
  | .AboutToWait => .about_to_wait
  | .LoopExiting => .exiting
  | .MemoryWarning => .memory_warning

/-- The run state of a loop instance, from the spec run-state machine:
NotRunning, Running, Destroyed. -/
inductive RunState where
  | NotRunning
  | Running
  | Destroyed
deriving DecidableEq

/-- The lifecycle errors of the spec taxonomy, returned synchronously from
`run`/`spawn`. -/
inductive EventLoopError where
  | AlreadyRunning
  | Destroyed
deriving DecidableEq

/-- Modelled from the spec: the run-state check performed when `run_app` or
`spawn_app` reaches the runner (`runner.rs`, not under `src/`; both entry
points in `src/src/platform_impl/web/event_loop/mod.rs` funnel into the same
`self.elw.p.run(handler, ...)` call). A NotRunning instance starts and
becomes Running; a Running instance yields `AlreadyRunning`; a Destroyed
instance yields `Destroyed`; both errors are returned synchronously by the
call itself. -/
def start_run (s : RunState) : Except EventLoopError RunState :=
  match s with
  | .NotRunning => .ok .Running
  | .Running => .error .AlreadyRunning
  | .Destroyed => .error .Destroyed

/-- The host-visible actions of the `run_app` body in
`src/src/platform_impl/web/event_loop/mod.rs`, in source order:
`self.elw.p.run(handler, false)` registers the leaked handler and arms the
scheduling (it returns, being non-blocking), then `backend::throw(...)`
raises the control-flow exception. -/
inductive RunAppAction where
  | arm_run
  | throw_exception
deriving DecidableEq

/-- How the `run_app` body ends: either by the abrupt non-local exit of
`backend::throw` or by a normal call-return. -/
inductive RunAppResult where
  | nonLocalExit
  | returned
deriving DecidableEq

/-- `EventLoop::run_app` from `src/src/platform_impl/web/event_loop/mod.rs`,
embedded as the trace of its actions together with how it terminates. The
body arms the loop via `self.elw.p.run(handler, false)`, then calls
`backend::throw` (modelled from the spec as the abrupt non-local exit, the
code of `backend` not being under `src/`), and ends in `unreachable!()`:
no code path produces a normal return, matching the `!` return type. -/
def run_app {A : Type} (_app : ApplicationHandler A) (_state : A) :
    List RunAppAction × RunAppResult :=
  ([.arm_run, .throw_exception], .nonLocalExit)

/-- A trivial application handler over the unit state, used to instantiate
universally quantified statements about `run_app`. -/
def unitHandler : ApplicationHandler Unit where
  new_events := fun _ _ _ => ()
  window_event := fun _ _ _ _ => ()
  device_event := fun _ _ _ _ => ()
  user_wake_up := fun _ _ => ()
  suspended := fun _ _ => ()
  resumed := fun _ _ => ()
  about_to_wait := fun _ _ => ()
  exiting := fun _ _ => ()
  memory_warning := fun _ _ => ()

/-- Modelled from the spec: the wake signal shared between the wake proxy
(`proxy.rs`, not under `src/`) and the runner, a single-slot dirty flag
rather than a counted queue. -/
structure WakeState where
  awake : Bool
deriving DecidableEq

/-- Modelled from the spec: `wake()` sets the dirty flag; calling it again
before the next tick is idempotent. -/
def wake (s : WakeState) : WakeState :=
  { s with awake := true }

/-- `n` successive `wake()` calls issued between two ticks. -/
def wakeN : Nat → WakeState → WakeState
  | 0, s => s
  | n + 1, s => wakeN n (wake s)

/-- Modelled from the spec: at the next tick the runner drains the wake
flag, dispatching one `UserWakeUp` event when it is set and none otherwise,
and clears it. -/
def tickWakeEvents (s : WakeState) : List Event × WakeState :=
  (if s.awake then [.UserWakeUp] else [], ⟨false⟩)

/-- `Poll`, the result of polling a future: `Pending` or `Ready`. -/
inductive Poll (α : Type) where
  | Pending
  | Ready (value : α)
deriving DecidableEq

/-- `Poll::map_ok` on a `Poll` of a result: map the success value, keep
`Pending` and errors untouched. -/
def Poll.map_ok {α β ε : Type} (p : Poll (Except ε α)) (f : α → β) :
    Poll (Except ε β) :=
  match p with
  | .Pending => .Pending
  | .Ready (.error e) => .Ready (.error e)
  | .Ready (.ok v) => .Ready (.ok (f v))

/-- The `CustomCursorError` enum of `src/src/platform/web.rs`. -/
inductive CustomCursorError where
  | Blob
  | Decode (message : String)
deriving DecidableEq

/-- `CustomCursorFuture::poll` from `src/src/platform/web.rs`, as a function
of the outcome the inner platform future produced for this poll:
`Pin::new(&mut self.0).poll(cx).map_ok(|cursor| CustomCursor { inner: cursor })`. -/
def customCursorFuturePoll
    (inner : Poll (Except CustomCursorError PlatformCustomCursor)) :
    Poll (Except CustomCursorError CustomCursor) :=
  inner.map_ok fun cursor => CustomCursor.mk cursor

/-- A handle to a host canvas element, abstracted as an identifier. -/
structure HtmlCanvasElement where
  element_id : Nat
deriving DecidableEq

/-- The web-specific window attributes targeted by the
`WindowAttributesExtWeb` builders of `src/src/platform/web.rs`: the
optional canvas, `prevent_default`, `focusable` and `append`. -/
structure PlatformSpecificWindowAttributes where
  canvas : Option HtmlCanvasElement
  prevent_default : Bool
  focusable : Bool
  append : Bool
deriving DecidableEq

/-- Modelled from the spec: `set_canvas` on the platform-specific
attributes (`platform_impl`, not under `src/`) stores the supplied canvas
option, per the doc of `with_canvas`. -/
def PlatformSpecificWindowAttributes.set_canvas
    (self : PlatformSpecificWindowAttributes)
    (canvas : Option HtmlCanvasElement) : PlatformSpecificWindowAttributes :=
  { self with canvas := canvas }

/-- `crate::window::WindowAttributes`: the platform-independent attributes
(defined outside `src/`, abstracted as a type parameter `β`) together with
the platform-specific ones. -/
structure WindowAttributes (β : Type) where
  base : β
  platform_specific : PlatformSpecificWindowAttributes

/-- `WindowAttributesExtWeb::with_canvas`:
`self.platform_specific.set_canvas(canvas); self`. -/
def WindowAttributes.with_canvas {β : Type} (self : WindowAttributes β)
    (canvas : Option HtmlCanvasElement) : WindowAttributes β :=
  { self with platform_specific := self.platform_specific.set_canvas canvas }

/-- `WindowAttributesExtWeb::with_prevent_default`:
`self.platform_specific.prevent_default = prevent_default; self`. -/
def WindowAttributes.with_prevent_default {β : Type}
    (self : WindowAttributes β) (prevent_default : Bool) :
    WindowAttributes β :=
  { self with platform_specific :=
      { self.platform_specific with prevent_default := prevent_default } }

/-- `WindowAttributesExtWeb::with_focusable`:
`self.platform_specific.focusable = focusable; self`. -/
def WindowAttributes.with_focusable {β : Type} (self : WindowAttributes β)
    (focusable : Bool) : WindowAttributes β :=
  { self with platform_specific :=
      { self.platform_specific with focusable := focusable } }

/-- `WindowAttributesExtWeb::with_append`:
`self.platform_specific.append = append; self`. -/
def WindowAttributes.with_append {β : Type} (self : WindowAttributes β)
    (append : Bool) : WindowAttributes β :=
  { self with platform_specific :=
      { self.platform_specific with append := append } }

/-
Theorems.
-/

theorem wakeN_preserves_awake (n : Nat) (s : WakeState)
    (h : s.awake = true) : (wakeN n s).awake = true := by
  induction n generalizing s with
  | zero => exact h
  | succ n ih => exact ih (wake s) rfl

/-- Claim C1: `from_animation d cs` fails with `Empty` when `cs` is empty,
fails with the nested-animation error (source constructor
`BadAnimation::Animation`, the `Nested` case of the spec taxonomy) when
some element of `cs` is an animation, and otherwise succeeds with a source
whose decoded cursor has `is_animation()` true; validation is a pure
computation over the arguments, done at the construction call. -/
theorem from_animation_spec (d : Duration) (cs : List CustomCursor) :
    (cs = [] → from_animation d cs = .error .Empty) ∧
    ((∃ c ∈ cs, c.is_animation = true) →
      from_animation d cs = .error .Animation) ∧
    (cs ≠ [] → (∀ c ∈ cs, c.is_animation = false) →
      from_animation d cs = .ok ⟨.Animation d cs⟩ ∧
      (cursorFromSource 0 ⟨.Animation d cs⟩).is_animation = true) := by
  refine ⟨fun h => by subst h; rfl, fun ⟨c, hc, hanim⟩ => ?_,
    fun hne hall => ?_⟩
  · have hemp : cs.isEmpty = false := by
      cases cs with
      | nil => exact absurd hc (List.not_mem_nil c)
      | cons a l => rfl
    have hany : cs.any CustomCursor.is_animation = true :=
      List.any_eq_true.mpr ⟨c, hc, hanim⟩
    simp [from_animation, hemp, hany]
  · have hemp : cs.isEmpty = false := by
      cases cs with
      | nil => exact absurd rfl hne
      | cons a l => rfl
    have hany : cs.any CustomCursor.is_animation = false := by
      cases hb : cs.any CustomCursor.is_animation with
      | false => rfl
      | true =>
        obtain ⟨c, hc, hanim⟩ := List.any_eq_true.mp hb
        rw [hall c hc] at hanim
        exact absurd hanim (by decide)
    exact ⟨by simp [from_animation, hemp, hany], rfl⟩

/-- Witness for C1: concrete instances of all three branches, obtained by
applying `from_animation_spec` at explicit inputs. -/
theorem from_animation_spec_witness :
    from_animation ⟨1, 0⟩ [] = .error .Empty ∧
    from_animation ⟨1, 0⟩ [⟨3, true⟩] = .error .Animation ∧
    from_animation ⟨1, 0⟩ [⟨1, false⟩, ⟨2, false⟩] =
      .ok ⟨.Animation ⟨1, 0⟩ [⟨1, false⟩, ⟨2, false⟩]⟩ ∧
    (cursorFromSource 0
      ⟨.Animation ⟨1, 0⟩ [⟨1, false⟩, ⟨2, false⟩]⟩).is_animation = true :=
  ⟨(from_animation_spec ⟨1, 0⟩ []).1 rfl,
   (from_animation_spec ⟨1, 0⟩ [⟨3, true⟩]).2.1 ⟨⟨3, true⟩, by decide, rfl⟩,
   ((from_animation_spec ⟨1, 0⟩ [⟨1, false⟩, ⟨2, false⟩]).2.2
      (by decide) (by decide)).1,
   ((from_animation_spec ⟨1, 0⟩ [⟨1, false⟩, ⟨2, false⟩]).2.2
      (by decide) (by decide)).2⟩

/-- Claim C2: invoking `run`/`spawn` on a Destroyed instance returns the
`Destroyed` error, invoking it on a Running instance (in particular a
second time after a successful start) returns `AlreadyRunning`; both are
values returned synchronously by `start_run`, not raised asynchronously. -/
theorem run_lifecycle_errors :
    start_run .Destroyed = .error .Destroyed ∧
    start_run .Running = .error .AlreadyRunning ∧
    ∀ s s', start_run s = .ok s' →
      start_run s' = .error .AlreadyRunning := by
  refine ⟨rfl, rfl, fun s s' h => ?_⟩
  cases s with
  | NotRunning =>
    cases h
    rfl
  | Running => cases h
  | Destroyed => cases h

/-- Witness for C2: a second `run` after a successful start from NotRunning
returns `AlreadyRunning`, by `run_lifecycle_errors` at concrete states. -/
theorem run_lifecycle_errors_witness :
    start_run .Running = .error .AlreadyRunning :=
  run_lifecycle_errors.2.2 .NotRunning .Running rfl

/-- Claim C3: for every handler and state, the `run_app` body never ends in
a normal call-return: its termination is the abrupt non-local exit of
`backend::throw`, its action trace arms the scheduling first and ends with
the throw, and nothing follows the throw (the `unreachable!()` tail). -/
theorem run_app_never_returns {A : Type} (app : ApplicationHandler A)
    (state : A) :
    (run_app app state).2 ≠ .returned ∧
    (run_app app state).2 = .nonLocalExit ∧
    (run_app app state).1 = [.arm_run, .throw_exception] :=
  ⟨fun h => RunAppResult.noConfusion h, rfl, rfl⟩

/-- Witness for C3: `run_app_never_returns` instantiated at the trivial
unit handler. -/
theorem run_app_never_returns_witness :
    (run_app unitHandler ()).2 = .nonLocalExit ∧
    (run_app unitHandler ()).1 = [.arm_run, .throw_exception] :=
  ⟨(run_app_never_returns unitHandler ()).2.1,
   (run_app_never_returns unitHandler ()).2.2⟩

/-- Claim C4: any positive number of `wake()` calls issued between tick N
and tick N+1 results in exactly one `UserWakeUp` event dispatched at tick
N+1, whatever the starting state of the flag, and the flag is clear again
afterwards: duplicate wake markers coalesce instead of being delivered
individually. -/
theorem wake_coalesces (n : Nat) (s : WakeState) (h : 1 ≤ n) :
    (tickWakeEvents (wakeN n s)).1 = [Event.UserWakeUp] ∧
    (tickWakeEvents (wakeN n s)).2.awake = false := by
  obtain ⟨m, rfl⟩ : ∃ m, n = m + 1 := ⟨n - 1, by omega⟩
  have haw : (wakeN (m + 1) s).awake = true :=
    wakeN_preserves_awake m (wake s) rfl
  exact ⟨by simp [tickWakeEvents, haw], rfl⟩

/-- Witness for C4: three wake calls from an idle state yield exactly one
`UserWakeUp`, by `wake_coalesces` at concrete inputs. -/
theorem wake_coalesces_witness :
    (tickWakeEvents (wakeN 3 ⟨false⟩)).1 = [Event.UserWakeUp] ∧
    (tickWakeEvents (wakeN 3 ⟨false⟩)).2.awake = false :=
  wake_coalesces 3 ⟨false⟩ (by decide)

/-- Claim C5: `handle_event` invokes exactly one application-handler entry
point per event, the one matching the event category: running it on the
instrumented logging handler produces precisely the one matching call
record, for every event. -/
theorem handle_event_dispatch (target : ActiveEventLoop) (e : Event) :
    handle_event loggingHandler [] target e = [specDispatchCall e] := by
  cases e <;> rfl

/-- Claim C6: the derived defaults of both strategy enums are the
`Scheduler` variants, not `IdleCallback` and not `Worker`. -/
theorem strategy_defaults :
    PollStrategy.default = PollStrategy.Scheduler ∧
    PollStrategy.default ≠ PollStrategy.IdleCallback ∧
    WaitUntilStrategy.default = WaitUntilStrategy.Scheduler ∧
    WaitUntilStrategy.default ≠ WaitUntilStrategy.Worker :=
  ⟨rfl, by decide, rfl, by decide⟩

/-- Witness for C6: the equalities of `strategy_defaults`, extracted. -/
theorem strategy_defaults_witness :
    PollStrategy.default = PollStrategy.Scheduler ∧
    WaitUntilStrategy.default = WaitUntilStrategy.Scheduler :=
  ⟨strategy_defaults.1, strategy_defaults.2.2.1⟩

/-- Claim C7: the strategy setters and getters round-trip on the shared
loop state — after setting a strategy the matching getter returns it — and
each setter leaves the other strategy and the armed scheduling token
unchanged. -/
theorem strategy_set_get (s : LoopHandle) (p : PollStrategy)
    (w : WaitUntilStrategy) :
    (set_poll_strategy s p).poll_strategy = p ∧
    (set_wait_until_strategy s w).wait_until_strategy = w ∧
    (set_poll_strategy s p).wait_until_strategy = s.wait_until_strategy ∧
    (set_wait_until_strategy s w).poll_strategy = s.poll_strategy ∧
    (set_poll_strategy s p).armed_token = s.armed_token ∧
    (set_wait_until_strategy s w).armed_token = s.armed_token :=
  ⟨rfl, rfl, rfl, rfl, rfl, rfl⟩

/-- Claim C8: a successful `from_animation` stores exactly the supplied
duration and exactly the supplied cursor list, in its original order, in
the `Animation` variant of the resulting source. -/
theorem from_animation_preserves_inputs (d : Duration)
    (cs : List CustomCursor) (hne : cs ≠ [])
    (hall : ∀ c ∈ cs, c.is_animation = false) :
    from_animation d cs = .ok ⟨.Animation d cs⟩ := by
  have hemp : cs.isEmpty = false := by
    cases cs with
    | nil => exact absurd rfl hne
    | cons a l => rfl
  have hany : cs.any CustomCursor.is_animation = false := by
    cases hb : cs.any CustomCursor.is_animation with
    | false => rfl
    | true =>
      obtain ⟨c, hc, hanim⟩ := List.any_eq_true.mp hb
      rw [hall c hc] at hanim
      exact absurd hanim (by decide)
  simp [from_animation, hemp, hany]

/-- Witness for C8: two distinct non-animation cursors come back in the
supplied order, by `from_animation_preserves_inputs` at concrete inputs. -/
theorem from_animation_preserves_inputs_witness :
    from_animation ⟨0, 7⟩ [⟨5, false⟩, ⟨4, false⟩] =
      .ok ⟨.Animation ⟨0, 7⟩ [⟨5, false⟩, ⟨4, false⟩]⟩ :=
  from_animation_preserves_inputs ⟨0, 7⟩ [⟨5, false⟩, ⟨4, false⟩]
    (by decide) (by decide)

/-- Claim C9: each `WindowAttributesExtWeb` builder sets exactly its own
platform-specific field and leaves the base attributes and every other
platform-specific field unchanged. -/
theorem window_attributes_frame {β : Type} (a : WindowAttributes β)
    (c : Option HtmlCanvasElement) (b : Bool) :
    (a.with_canvas c).platform_specific.canvas = c ∧
    (a.with_canvas c).base = a.base ∧
    (a.with_canvas c).platform_specific.prevent_default =
      a.platform_specific.prevent_default ∧
    (a.with_canvas c).platform_specific.focusable =
      a.platform_specific.focusable ∧
    (a.with_canvas c).platform_specific.append = a.platform_specific.append ∧
    (a.with_prevent_default b).platform_specific.prevent_default = b ∧
    (a.with_prevent_default b).base = a.base ∧
    (a.with_prevent_default b).platform_specific.canvas =
      a.platform_specific.canvas ∧
    (a.with_prevent_default b).platform_specific.focusable =
      a.platform_specific.focusable ∧
    (a.with_prevent_default b).platform_specific.append =
      a.platform_specific.append ∧
    (a.with_focusable b).platform_specific.focusable = b ∧
    (a.with_focusable b).base = a.base ∧
    (a.with_focusable b).platform_specific.canvas =
      a.platform_specific.canvas ∧
    (a.with_focusable b).platform_specific.prevent_default =
      a.platform_specific.prevent_default ∧
    (a.with_focusable b).platform_specific.append =
      a.platform_specific.append ∧
    (a.with_append b).platform_specific.append = b ∧
    (a.with_append b).base = a.base ∧
    (a.with_append b).platform_specific.canvas = a.platform_specific.canvas ∧
    (a.with_append b).platform_specific.prevent_default =
      a.platform_specific.prevent_default ∧
    (a.with_append b).platform_specific.focusable =
      a.platform_specific.focusable :=
  ⟨rfl, rfl, rfl, rfl, rfl, rfl, rfl, rfl, rfl, rfl,
   rfl, rfl, rfl, rfl, rfl, rfl, rfl, rfl, rfl, rfl⟩

/-- Claim C10: `CustomCursorFuture::poll` is a transparent adapter over the
inner platform future: it is `Pending` exactly when the inner poll is
`Pending`, yields the identical error exactly when the inner poll errs,
and wraps an inner success unchanged into the public `CustomCursor`. -/
theorem custom_cursor_future_poll_transparent
    (inner : Poll (Except CustomCursorError PlatformCustomCursor)) :
    (customCursorFuturePoll inner = .Pending ↔ inner = .Pending) ∧
    (∀ e, customCursorFuturePoll inner = .Ready (.error e) ↔
      inner = .Ready (.error e)) ∧
    (∀ c, inner = .Ready (.ok c) →
      customCursorFuturePoll inner = .Ready (.ok ⟨c⟩)) := by
  refine ⟨?_, fun e => ?_, fun c h => by subst h; rfl⟩
  · cases inner with
    | Pending => simp [customCursorFuturePoll, Poll.map_ok]
    | Ready r =>
      cases r with
      | error e => simp [customCursorFuturePoll, Poll.map_ok]
      | ok v => simp [customCursorFuturePoll, Poll.map_ok]
  · cases inner with
    | Pending => simp [customCursorFuturePoll, Poll.map_ok]
    | Ready r =>
      cases r with
      | error e' => simp [customCursorFuturePoll, Poll.map_ok]
      | ok v => simp [customCursorFuturePoll, Poll.map_ok]

/-- Witness for C10: the three behaviours at concrete inner outcomes, by
`custom_cursor_future_poll_transparent`. -/
theorem custom_cursor_future_poll_transparent_witness :
    customCursorFuturePoll .Pending = .Pending ∧
    customCursorFuturePoll (.Ready (.error .Blob)) =
      .Ready (.error .Blob) ∧
    customCursorFuturePoll (.Ready (.ok ⟨5, false⟩)) =
      .Ready (.ok ⟨⟨5, false⟩⟩) :=
  ⟨(custom_cursor_future_poll_transparent .Pending).1.mpr rfl,
   ((custom_cursor_future_poll_transparent
      (.Ready (.error .Blob))).2.1 .Blob).mpr rfl,
   (custom_cursor_future_poll_transparent
      (.Ready (.ok ⟨5, false⟩))).2.2 ⟨5, false⟩ rfl⟩

end WinitWeb
